import Mathlib

/-!
# Verification of the VIX tools command executor (vixTools.c)

Shallow embedding of the core subsystems of
`services/plugins/vix/vixTools.c` (POSIX/linux configuration):

* the exited-process registry (`VixToolsUpdateExitedProgramList` and the
  records created by `VixTools_StartProgram` / `VixToolsMonitorStartProgram`);
* the impersonation gate (`VixToolsImpersonateUserImplEx`,
  `VixToolsUnimpersonateUser`, `VixToolsLogoutUser`) and the handler
  acquire/release skeleton shared by all command handlers;
* the process-kill guard (`VixToolsKillProcess`,
  `VixToolsPidRefersToThisProcess`);
* the launch preconditions of `VixToolsStartProgramImpl` and
  `VixToolsRunProgramImpl`, and their choice of child environment;
* the completion monitors (`VixToolsMonitorAsyncProc`,
  `VixToolsMonitorStartProgram`);
* the dispatcher `VixTools_ProcessVixCommand` (its switch on the opcodes
  modelled here plus the shared abort tail).

Machine integers: `pid_t`, `time_t` and exit codes are modelled as `Int`;
none of the modelled code paths overflow them.  Error codes are modelled as
a closed inductive type (one constructor per `VIX_E_*` constant the modelled
code mentions) rather than their numeric values.
-/

namespace VixTools

/-- The VIX error codes that appear in the modelled code paths.
`VIX_OK` is the success value. -/
inductive VixError where
  | VIX_OK
  | VIX_E_FAIL
  | VIX_E_INVALID_ARG
  | VIX_E_FILE_NOT_FOUND
  | VIX_E_GUEST_USER_PERMISSIONS
  | VIX_E_NOT_A_DIRECTORY
  | VIX_E_PROGRAM_NOT_STARTED
  | VIX_E_NOT_SUPPORTED
  | VIX_E_OUT_OF_MEMORY
  | VIX_E_INTERACTIVE_SESSION_USER_MISMATCH
  | VIX_E_EMPTY_PASSWORD_NOT_ALLOWED_IN_GUEST
  | translatedSystemErr
  deriving DecidableEq, Repr

open VixError

/-! ## Exited-process registry

`VixToolsExitedProgramState` records (vixTools.c lines 165-176) live in the
singly-linked `exitedProcessList`, modelled as a `List`.  `name` and `user`
are `Option String` because `VixToolsMonitorStartProgram` synthesizes exit
records with `NULL` name/user. -/

/-- One record of the exited-process registry
(`struct VixToolsExitedProgramState`). -/
structure ExitedProgramState where
  name      : Option String
  user      : Option String
  pid       : Int
  startTime : Int
  exitCode  : Int
  endTime   : Int
  isRunning : Bool
  deriving DecidableEq, Repr

/-- `VIX_TOOLS_EXITED_PROGRAM_REAP_TIME` = 5 * 60 seconds. -/
def VIX_TOOLS_EXITED_PROGRAM_REAP_TIME : Int := 5 * 60

/-- First phase of `VixToolsUpdateExitedProgramList`: walk the list and, at
the first record whose `pid` matches, overwrite `exitCode` and `endTime`
with the incoming values (the code mutates only these two fields), leaving
the rest of the list untouched. -/
def updateFirstMatch (s : ExitedProgramState) :
    List ExitedProgramState → List ExitedProgramState
  | [] => []
  | e :: rest =>
    if e.pid = s.pid then
      { e with exitCode := s.exitCode, endTime := s.endTime } :: rest
    else
      e :: updateFirstMatch s rest

/-- The retention test of the reap phase: a record survives the sweep at
time `now` unless it is not running and
`endTime < now - VIX_TOOLS_EXITED_PROGRAM_REAP_TIME`. -/
def keepsRecord (now : Int) (e : ExitedProgramState) : Bool :=
  e.isRunning || !(e.endTime < now - VIX_TOOLS_EXITED_PROGRAM_REAP_TIME)

/-- `VixToolsUpdateExitedProgramList(state)` at time `now` (the function
reads `now = time(NULL)` once).  Three phases, in source order:
1. if `state` is non-null and `state->isRunning == FALSE` and a record with
   the same pid exists, update that record in place and drop `state`;
2. unlink every record that fails the retention test;
3. append the surviving `state` (if any) at the tail of the list. -/
def VixToolsUpdateExitedProgramList (now : Int) :
    Option ExitedProgramState → List ExitedProgramState →
      List ExitedProgramState
  | some s, l =>
    if s.isRunning = false ∧ l.any (fun e => e.pid = s.pid) then
      (updateFirstMatch s l).filter (keepsRecord now)
    else
      l.filter (keepsRecord now) ++ [s]
  | none, l => l.filter (keepsRecord now)

/-- The still-running placeholder record that the success path of
`VixTools_StartProgram` builds (`exitState` at lines 824-835): exitCode 0,
endTime 0, isRunning TRUE. -/
def startProgramRunningRecord (name user : String) (pid now : Int) :
    ExitedProgramState :=
  { name := some name, user := some user, pid := pid, startTime := now
    exitCode := 0, endTime := 0, isRunning := true }

/-- The terminal record that `VixToolsMonitorStartProgram` synthesizes at
exit-detection time (NULL name/user, startTime 0, isRunning FALSE). -/
def monitorExitRecord (pid exitCode now : Int) : ExitedProgramState :=
  { name := none, user := none, pid := pid, startTime := 0
    exitCode := exitCode, endTime := now, isRunning := false }

/-- Registry operations, as performed by the two writers: `recordRunning`
by the success path of `VixTools_StartProgram`, `recordExit` by
`VixToolsMonitorStartProgram`. -/
inductive RegOp where
  | recordRunning (name user : String) (pid now : Int)
  | recordExit (pid exitCode now : Int)
  deriving DecidableEq, Repr

/-- Apply one registry operation (each writer calls
`VixToolsUpdateExitedProgramList` with the record it built). -/
def applyRegOp (op : RegOp) (l : List ExitedProgramState) :
    List ExitedProgramState :=
  match op with
  | .recordRunning name user pid now =>
    VixToolsUpdateExitedProgramList now
      (some (startProgramRunningRecord name user pid now)) l
  | .recordExit pid exitCode now =>
    VixToolsUpdateExitedProgramList now (some (monitorExitRecord pid exitCode now)) l

/-- Apply a sequence of registry operations, oldest first. -/
def applyRegOps (ops : List RegOp) (l : List ExitedProgramState) :
    List ExitedProgramState :=
  match ops with
  | [] => l
  | op :: rest => applyRegOps rest (applyRegOp op l)

/-- Number of registry records carrying a given pid. -/
def countPid (p : Int) (l : List ExitedProgramState) : Nat :=
  (l.filter (fun e => e.pid = p)).length

/-- A sequence of registry operations is launch-fresh from registry `l`
when every `recordRunning` it performs uses a pid that has no record (of
either kind) in the registry at that moment. -/
def launchFresh : List RegOp → List ExitedProgramState → Bool
  | [], _ => true
  | op :: rest, l =>
    (match op with
     | .recordRunning _ _ pid _ => countPid pid l = 0
     | .recordExit _ _ _ => true) && launchFresh rest (applyRegOp op l)

/-! ## Impersonation gate

`VixToolsImpersonateUserImplEx` (POSIX/linux branch), `VixToolsUnimpersonateUser`
and `VixToolsLogoutUser`.  The identity token (`void *userToken`) is either
`NULL`, the sentinel `PROCESS_CREATOR_USER_TOKEN`, or a live `AuthToken`
handle obtained from `Auth_AuthenticateUser`. -/

/-- The `void *userToken` handle. -/
inductive Token where
  | null
  | processCreator
  | auth (handle : Nat)
  deriving DecidableEq, Repr

/-- `userCredentialType` values the modelled code distinguishes.
`other n` stands for any further credential kind. -/
inductive CredentialType where
  | root
  | consoleUser
  | namedInteractiveUser
  | namePassword
  | namePasswordObfuscated
  | other (n : Nat)
  deriving DecidableEq, Repr

/-- Outcomes of the external collaborators called by
`VixToolsImpersonateUserImplEx`, plus the two policy globals read by it. -/
structure ImpersonationEnv where
  /-- global `thisProcessRunsAsRoot`. -/
  thisProcessRunsAsRoot : Bool
  /-- global `allowConsoleUserOps`. -/
  allowConsoleUserOps : Bool
  /-- `VixMsg_DeObfuscateNamePassword` succeeds with a non-null user name. -/
  deObfuscateOk : Bool
  /-- `VixToolsDoesUsernameMatchCurrentUser` returns `VIX_OK`. -/
  usernameMatchesCurrentUser : Bool
  /-- `Auth_AuthenticateUser` result (`none` = `NULL`). -/
  authToken : Option Nat
  /-- `ProcMgr_ImpersonateUserStart` succeeds. -/
  impersonateStartOk : Bool
  deriving DecidableEq, Repr

/-- `VixToolsImpersonateUserImplEx` (linux branch), returning the error and
the value left in `*userToken` (initialized to `NULL` on entry).  Branches in
source order: root credential honored only under `thisProcessRunsAsRoot`;
console-user honored when `allowConsoleUserOps` or the process is not root;
named-interactive honored (without password check) only when not root and
the de-obfuscated name matches the current user, yielding the sentinel;
anything other than the two name/password kinds is unsupported; else
de-obfuscate, authenticate (storing the live token in `*userToken`), then
start impersonation — a failure of that last step leaves the live token in
`*userToken` while returning an error. -/
def VixToolsImpersonateUserImplEx (env : ImpersonationEnv)
    (credentialType : CredentialType) : VixError × Token :=
  if credentialType = .root ∧ env.thisProcessRunsAsRoot then
    (VIX_OK, .processCreator)
  else if credentialType = .consoleUser ∧
      (env.allowConsoleUserOps ∨ ¬env.thisProcessRunsAsRoot) then
    (VIX_OK, .processCreator)
  else if credentialType = .namedInteractiveUser then
    if ¬env.thisProcessRunsAsRoot then
      if ¬env.deObfuscateOk then (VIX_E_FAIL, .null)
      else if ¬env.usernameMatchesCurrentUser then
        (VIX_E_INTERACTIVE_SESSION_USER_MISMATCH, .null)
      else (VIX_OK, .processCreator)
    else (VIX_E_FAIL, .null)
  else if credentialType ≠ .namePassword ∧
      credentialType ≠ .namePasswordObfuscated then
    (VIX_E_NOT_SUPPORTED, .null)
  else if ¬env.deObfuscateOk then (VIX_E_FAIL, .null)
  else
    match env.authToken with
    | none => (VIX_E_GUEST_USER_PERMISSIONS, .null)
    | some t =>
      if env.impersonateStartOk then (VIX_OK, .auth t)
      else (VIX_E_GUEST_USER_PERMISSIONS, .auth t)

/-- `VixToolsImpersonateUser`: reads the credential field out of the request
and delegates to `VixToolsImpersonateUserImplEx`.  (The `#ifdef _WIN32`
empty-password rewrite does not apply on the modelled POSIX build.) -/
def VixToolsImpersonateUser (env : ImpersonationEnv)
    (credentialType : CredentialType) : VixError × Token :=
  VixToolsImpersonateUserImplEx env credentialType

/-- Whether `VixToolsUnimpersonateUser` performs the context restore
(`ProcMgr_ImpersonateUserStop`): it does unless the token is the
`PROCESS_CREATOR_USER_TOKEN` sentinel. -/
def VixToolsUnimpersonateUserStops (userToken : Token) : Bool :=
  userToken != .processCreator

/-- Whether `VixToolsLogoutUser` performs `Auth_CloseToken`: it returns
early for the sentinel, and the close is guarded by a `NULL` check. -/
def VixToolsLogoutUserCloses (userToken : Token) : Bool :=
  match userToken with
  | .processCreator => false
  | .null => false
  | .auth _ => true

/-- Observable calls made by one run of a command handler around the
impersonation gate. -/
structure HandlerTrace where
  err : VixError
  /-- calls to `VixToolsUnimpersonateUser`. -/
  unimpersonateCalls : Nat
  /-- `Auth_CloseToken` invocations performed inside `VixToolsLogoutUser`. -/
  closeTokenCalls : Nat
  deriving DecidableEq, Repr

/-- The acquire/release skeleton shared by every handler (e.g.
`VixToolsKillProcess`, `VixTools_StartProgram`): impersonate; on failure jump
to `abort` with `impersonatingVMWareUser` still FALSE; otherwise run the body;
at `abort`, call `VixToolsUnimpersonateUser` only when impersonating, then
call `VixToolsLogoutUser` unconditionally. -/
def handlerSkeleton (imp : VixError × Token) (bodyErr : VixError) :
    HandlerTrace :=
  if imp.1 = VIX_OK then
    { err := bodyErr
      unimpersonateCalls := 1
      closeTokenCalls := if VixToolsLogoutUserCloses imp.2 then 1 else 0 }
  else
    { err := imp.1
      unimpersonateCalls := 0
      closeTokenCalls := if VixToolsLogoutUserCloses imp.2 then 1 else 0 }

/-- One handler run for a given credential descriptor: the skeleton applied
to the impersonation gate's outcome. -/
def handlerRun (env : ImpersonationEnv) (credentialType : CredentialType)
    (bodyErr : VixError) : HandlerTrace :=
  handlerSkeleton (VixToolsImpersonateUser env credentialType) bodyErr

/-- Number of impersonation calls (zero or one here) that succeeded AND
returned a non-sentinel (live) token — the quantity the specification says
the release count equals. -/
def successfulLiveImpersonations (env : ImpersonationEnv)
    (credentialType : CredentialType) : Nat :=
  match VixToolsImpersonateUser env credentialType with
  | (VIX_OK, .auth _) => 1
  | _ => 0

/-- Number of impersonation calls (zero or one here) that left a live
(non-sentinel, non-null) token in `*userToken`, successful or not. -/
def acquiredLiveTokens (env : ImpersonationEnv)
    (credentialType : CredentialType) : Nat :=
  match (VixToolsImpersonateUser env credentialType).2 with
  | .auth _ => 1
  | _ => 0

/-! ## Kill-process guard -/

/-- `VixToolsPidRefersToThisProcess` (POSIX branch): the pid kills us if it
is our own pid, `0` (our process group), `-1` (everything we can signal), or
`pid < -1` with `getpgrp() == pid * -1`. -/
def VixToolsPidRefersToThisProcess (ownPid pgrp pid : Int) : Bool :=
  (ownPid = pid) || (pid = 0) || (pid = -1) ||
    ((pid < -1) && (pgrp = pid * -1))

/-- `VixToolsKillProcess`: impersonate; refuse with
`VIX_E_GUEST_USER_PERMISSIONS` when the target pid refers to this process;
otherwise call `ProcMgr_KillByPid` (outcome `killOk`), translating a failure
into a system error.  Returns the error and whether `ProcMgr_KillByPid` was
invoked. -/
def VixToolsKillProcess (env : ImpersonationEnv)
    (credentialType : CredentialType) (ownPid pgrp pid : Int)
    (killOk : Bool) : VixError × Bool :=
  let imp := VixToolsImpersonateUser env credentialType
  if imp.1 ≠ VIX_OK then (imp.1, false)
  else if VixToolsPidRefersToThisProcess ownPid pgrp pid then
    (VIX_E_GUEST_USER_PERMISSIONS, false)
  else if ¬killOk then (translatedSystemErr, true)
  else (VIX_OK, true)

/-! ## Completion monitors

`VixToolsMonitorAsyncProc` / `VixToolsMonitorStartProgram` are invoked by a
re-armed one-shot timer.  Each invocation checks
`ProcMgr_IsAsyncProcRunning`; while it reports TRUE the monitor re-arms the
timer and returns without touching the exit status; at the first FALSE it
runs the `done` path — one `ProcMgr_GetExitCode` call — frees its state and
never re-arms, so no later poll happens.  A monitor lifetime is therefore
determined by the list of liveness observations the polls would make; the
functions below return the poll indices (0-based) at which
`ProcMgr_GetExitCode` is invoked. -/

/-- Poll indices at which `VixToolsMonitorAsyncProc` calls
`ProcMgr_GetExitCode`, given the liveness value each poll observes. -/
def VixToolsMonitorAsyncProcExitCalls : List Bool → List Nat
  | [] => []
  | procIsRunning :: rest =>
    if procIsRunning then (VixToolsMonitorAsyncProcExitCalls rest).map (· + 1)
    else [0]

/-- Poll indices at which `VixToolsMonitorStartProgram` calls
`ProcMgr_GetExitCode`, given the liveness value each poll observes. -/
def VixToolsMonitorStartProgramExitCalls : List Bool → List Nat
  | [] => []
  | procIsRunning :: rest =>
    if procIsRunning then
      (VixToolsMonitorStartProgramExitCalls rest).map (· + 1)
    else [0]

/-- The exit-code fixup both `done` paths perform: `result` is the return
value of `ProcMgr_GetExitCode`; on failure (`0 != result`) the code
substitutes `-1` for the retrieved value. -/
def effectiveExitCode (result rawExitCode : Int) : Int :=
  if result ≠ 0 then -1 else rawExitCode

/-- The `done` path of `VixToolsMonitorAsyncProc`: after the single
`ProcMgr_GetExitCode` call, invoke the registered completion callback
`reportProgramDoneProc(requestName, err, exitCode, pid)` — unless no proc is
registered or the launch asked for `VIX_RUNPROGRAM_RETURN_IMMEDIATELY`.
Returns the `(err, exitCode, pid)` triple delivered, if any. -/
def VixToolsMonitorAsyncProcDone (result rawExitCode pid : Int)
    (hasReportProgramDoneProc returnImmediately : Bool) :
    Option (VixError × Int × Int) :=
  if hasReportProgramDoneProc && !returnImmediately then
    some (VIX_OK, effectiveExitCode result rawExitCode, pid)
  else
    none

/-- The `done` path of `VixToolsMonitorStartProgram`: after the single
`ProcMgr_GetExitCode` call, build the synthesized terminal record (NULL
name/user, `endTime = time(NULL)`, `isRunning = FALSE`) and hand it to
`VixToolsUpdateExitedProgramList`.  Returns the updated registry. -/
def VixToolsMonitorStartProgramDone (result rawExitCode pid now : Int)
    (l : List ExitedProgramState) : List ExitedProgramState :=
  VixToolsUpdateExitedProgramList now
    (some (monitorExitRecord pid (effectiveExitCode result rawExitCode) now)) l

/-! ## Launch engine

`VixToolsRunProgramImpl` (fire-and-report) and `VixToolsStartProgramImpl`
(tracked).  The filesystem and `ProcMgr_ExecAsync` are external
collaborators, modelled as oracles; `Str_Asprintf` allocation is assumed to
succeed (its `NULL` out-of-memory branch is not modelled). -/

/-- Filesystem oracle: `File_Exists`, `FileIO_Access(_, FILEIO_ACCESS_EXEC)
== FILEIO_SUCCESS`, and `File_IsDirectory`. -/
structure FileSystem where
  fileExists : String → Bool
  execAccess : String → Bool
  isDirectory : String → Bool

/-- The program-name extraction both launch flavors perform before the
existence checks: skip leading spaces; if the first character is a double
quote, the name is what follows up to the next double quote (or the end of
the string when unterminated); otherwise the whole remainder. -/
def extractProgramNameList : List Char → List Char
  | s =>
    match s.dropWhile (· = ' ') with
    | '"' :: rest => rest.takeWhile (· ≠ '"')
    | t => t

/-- `extractProgramNameList` on `String`s. -/
def extractProgramName (s : String) : String :=
  ⟨extractProgramNameList s.data⟩

/-- `VixToolsEnvironmentTableToEnvp`: a `NULL` table yields a `NULL` envp,
otherwise the table's `name=value` entries (iteration order abstracted as
the list order). -/
def VixToolsEnvironmentTableToEnvp (envTable : Option (List String)) :
    Option (List String) :=
  envTable

/-- `ProcMgr_ExecAsync` environment semantics: a `NULL` `procArgs.envp`
makes the child inherit the agent's ambient environment; a non-`NULL` one
is used as the child's entire environment. -/
def childEnvironment (envp : Option (List String))
    (ambientEnvironment : List String) : List String :=
  match envp with
  | some e => e
  | none => ambientEnvironment

/-- Result of one launch-impl run: the error, whether `ProcMgr_ExecAsync`
was invoked, the `*pid` out-parameter (initialized to `-1`), and the
`procArgs.envp` that was (or would have been) handed to
`ProcMgr_ExecAsync`. -/
structure LaunchResult where
  err : VixError
  execAsyncCalled : Bool
  pid : Int
  envp : Option (List String)
  deriving DecidableEq, Repr

/-- `VixToolsRunProgramImpl` (POSIX branch): extract the program name from
the command line; fail with `VIX_E_FILE_NOT_FOUND` when it does not exist
and `VIX_E_GUEST_USER_PERMISSIONS` when it is not executable, both before
any `ProcMgr_ExecAsync` call; otherwise exec with
`procArgs.envp = VixToolsEnvironmentTableToEnvp(userEnvironmentTable)`.
`execResult` is the `ProcMgr_ExecAsync`/`ProcMgr_GetPid` oracle. -/
def VixToolsRunProgramImpl (fs : FileSystem) (execResult : Option Int)
    (userEnvironmentTable : Option (List String)) (commandLine : String) :
    LaunchResult :=
  let name := extractProgramName commandLine
  let envp := VixToolsEnvironmentTableToEnvp userEnvironmentTable
  if ¬fs.fileExists name then
    { err := VIX_E_FILE_NOT_FOUND, execAsyncCalled := false, pid := -1
      envp := envp }
  else if ¬fs.execAccess name then
    { err := VIX_E_GUEST_USER_PERMISSIONS, execAsyncCalled := false
      pid := -1, envp := envp }
  else
    match execResult with
    | none =>
      { err := VIX_E_PROGRAM_NOT_STARTED, execAsyncCalled := true
        pid := -1, envp := envp }
    | some p =>
      { err := VIX_OK, execAsyncCalled := true, pid := p, envp := envp }

/-- `VixToolsStartProgramImpl` (POSIX branch): same existence and
executability checks; additionally, a non-`NULL` `workingDir` that is not a
directory fails with `VIX_E_NOT_A_DIRECTORY`; the exec uses
`procArgs.envp = envVars` — the request-supplied variables, not the
environment-override table. -/
def VixToolsStartProgramImpl (fs : FileSystem) (execResult : Option Int)
    (programPath : String) (workingDir : Option String)
    (envVars : Option (List String)) : LaunchResult :=
  let name := extractProgramName programPath
  if ¬fs.fileExists name then
    { err := VIX_E_FILE_NOT_FOUND, execAsyncCalled := false, pid := -1
      envp := envVars }
  else if ¬fs.execAccess name then
    { err := VIX_E_GUEST_USER_PERMISSIONS, execAsyncCalled := false
      pid := -1, envp := envVars }
  else if workingDir.any (fun d => ¬fs.isDirectory d) then
    { err := VIX_E_NOT_A_DIRECTORY, execAsyncCalled := false, pid := -1
      envp := envVars }
  else
    match execResult with
    | none =>
      { err := VIX_E_PROGRAM_NOT_STARTED, execAsyncCalled := true
        pid := -1, envp := envVars }
    | some p =>
      { err := VIX_OK, execAsyncCalled := true, pid := p, envp := envVars }

/-- The request fields `VixTools_StartProgram` decodes out of
`VixMsgStartProgramRequest` (a zero declared length yields a `NULL`
pointer, hence `Option`). -/
structure StartProgramRequest where
  programPath : String
  arguments : Option String
  workingDir : Option String
  envVars : Option (List String)
  deriving DecidableEq, Repr

/-- Result of `VixTools_StartProgram`: error, the textual result buffer
(the pid printed with `%d`, `-1` on failure paths), the registry after the
call, and whether `ProcMgr_ExecAsync` was invoked. -/
structure StartProgramOutcome where
  err : VixError
  result : String
  registry : List ExitedProgramState
  execAsyncCalled : Bool
  deriving DecidableEq, Repr

/-- `VixTools_StartProgram`: reject an empty program path with
`VIX_E_INVALID_ARG`; impersonate; run `VixToolsStartProgramImpl`; on
`VIX_OK` only, build the still-running placeholder record (name = the full
program path, user = the impersonated user name) and add it via
`VixToolsUpdateExitedProgramList`; always print the pid (still `-1` on the
failure paths) into the result buffer. -/
def VixTools_StartProgram (env : ImpersonationEnv)
    (credentialType : CredentialType) (fs : FileSystem)
    (execResult : Option Int) (impersonatedUsername : String) (now : Int)
    (req : StartProgramRequest) (l : List ExitedProgramState) :
    StartProgramOutcome :=
  if req.programPath = "" then
    { err := VIX_E_INVALID_ARG, result := "-1", registry := l
      execAsyncCalled := false }
  else
    let imp := VixToolsImpersonateUser env credentialType
    if imp.1 ≠ VIX_OK then
      { err := imp.1, result := "-1", registry := l
        execAsyncCalled := false }
    else
      let r := VixToolsStartProgramImpl fs execResult req.programPath
        req.workingDir req.envVars
      let registry :=
        if r.err = VIX_OK then
          VixToolsUpdateExitedProgramList now
            (some (startProgramRunningRecord req.programPath
              impersonatedUsername r.pid now)) l
        else l
      { err := r.err, result := toString r.pid, registry := registry
        execAsyncCalled := r.execAsyncCalled }

/-! ## Dispatcher

`VixTools_ProcessVixCommand`: a switch on `requestMsg->opCode` followed by a
shared `abort` tail that substitutes the empty string for a `NULL` result
value, computes a `strlen` length for plain-text results, and writes the
three out-parameters.  We embed the switch over the opcodes whose handlers
are modelled in this file (`VIX_COMMAND_KILL_PROCESS`,
`VIX_COMMAND_START_PROGRAM`) together with the `default` branch;
`unhandled n` ranges over the opcodes matching none of the source's
`case` labels. -/

/-- Opcodes of the embedded switch; `unhandled n` is any opcode that hits
the `default` branch of the source's switch. -/
inductive Opcode where
  | VIX_COMMAND_KILL_PROCESS
  | VIX_COMMAND_START_PROGRAM
  | unhandled (n : Nat)
  deriving DecidableEq, Repr

/-- What `VixTools_ProcessVixCommand` hands back through its
out-parameters: the returned error, `*resultBuffer`, `*resultLen`, and
`*deleteResultBufferResult` (whether the buffer is caller-owned). -/
structure DispatchOutcome where
  err : VixError
  resultBuffer : String
  resultLen : Nat
  deleteResultBufferResult : Bool
  registry : List ExitedProgramState
  deriving DecidableEq, Repr

/-- The `abort` tail of `VixTools_ProcessVixCommand`: a `NULL`
`resultValue` is replaced by the static empty string with
`deleteResultValue = FALSE`; when the handler did not supply an explicit
length (`mustSetResultValueLength`), the length is `strlen(resultValue)`. -/
def processVixCommandAbortTail (err : VixError) (resultValue : Option String)
    (mustSetResultValueLength : Bool) (resultValueLength : Nat)
    (deleteResultValue : Bool) : VixError × String × Nat × Bool :=
  let rv := resultValue.getD ""
  let del := match resultValue with
    | none => false
    | some _ => deleteResultValue
  let len := if mustSetResultValueLength then rv.length else resultValueLength
  (err, rv, len, del)

/-- Everything one dispatched request can observe: the oracles of the
impersonation gate, the filesystem, the exec call, the kill-request fields
(`killProcessRequest->pid`, `getpid()`, `getpgrp()`, `ProcMgr_KillByPid`'s
outcome), the start-program request, and the registry. -/
structure DispatchContext where
  impEnv : ImpersonationEnv
  credentialType : CredentialType
  fs : FileSystem
  execResult : Option Int
  impersonatedUsername : String
  now : Int
  killPid : Int
  ownPid : Int
  pgrp : Int
  killOk : Bool
  startReq : StartProgramRequest
  registry : List ExitedProgramState

/-- `VixTools_ProcessVixCommand` over the embedded opcode set.  The
`VIX_COMMAND_KILL_PROCESS` case leaves `resultValue` `NULL`; the
`VIX_COMMAND_START_PROGRAM` case stores the handler's static pid string in
`resultValue` without setting `deleteResultValue`; the `default` branch
does nothing, leaving `err = VIX_OK` and `resultValue` `NULL`.  Both
modelled handlers leave `mustSetResultValueLength` TRUE. -/
def VixTools_ProcessVixCommand (ctx : DispatchContext) (opCode : Opcode) :
    DispatchOutcome :=
  match opCode with
  | .VIX_COMMAND_KILL_PROCESS =>
    let r := VixToolsKillProcess ctx.impEnv ctx.credentialType ctx.ownPid
      ctx.pgrp ctx.killPid ctx.killOk
    let t := processVixCommandAbortTail r.1 none true 0 false
    { err := t.1, resultBuffer := t.2.1, resultLen := t.2.2.1
      deleteResultBufferResult := t.2.2.2, registry := ctx.registry }
  | .VIX_COMMAND_START_PROGRAM =>
    let r := VixTools_StartProgram ctx.impEnv ctx.credentialType ctx.fs
      ctx.execResult ctx.impersonatedUsername ctx.now ctx.startReq
      ctx.registry
    let t := processVixCommandAbortTail r.err (some r.result) true 0 false
    { err := t.1, resultBuffer := t.2.1, resultLen := t.2.2.1
      deleteResultBufferResult := t.2.2.2, registry := r.registry }
  | .unhandled _ =>
    let t := processVixCommandAbortTail VIX_OK none true 0 false
    { err := t.1, resultBuffer := t.2.1, resultLen := t.2.2.1
      deleteResultBufferResult := t.2.2.2, registry := ctx.registry }

/-! ## Theorems -/

theorem updateExitedProgramList_none_eq_filter (now : Int)
    (l : List ExitedProgramState) :
    VixToolsUpdateExitedProgramList now none l = l.filter (keepsRecord now) :=
  rfl

/-- C4: at a reap sweep at time `now`, a terminal entry whose `endTime` is
`now`, minus the 5-minute retention window, minus 1 second is removed; a
terminal entry whose `endTime` is `now` minus the window plus 1 second is
retained; and an entry with `isRunning` true is never removed regardless of
its age. -/
theorem reap_retention_boundary (now : Int) (l : List ExitedProgramState)
    (e₁ e₂ e₃ : ExitedProgramState)
    (h₁r : e₁.isRunning = false)
    (h₁t : e₁.endTime = now - VIX_TOOLS_EXITED_PROGRAM_REAP_TIME - 1)
    (h₂t : e₂.endTime = now - VIX_TOOLS_EXITED_PROGRAM_REAP_TIME + 1)
    (h₂m : e₂ ∈ l)
    (h₃r : e₃.isRunning = true)
    (h₃m : e₃ ∈ l) :
    e₁ ∉ VixToolsUpdateExitedProgramList now none l ∧
    e₂ ∈ VixToolsUpdateExitedProgramList now none l ∧
    e₃ ∈ VixToolsUpdateExitedProgramList now none l := by
  rw [updateExitedProgramList_none_eq_filter]
  refine ⟨?_, ?_, ?_⟩
  · intro hmem
    rcases List.mem_filter.mp hmem with ⟨-, hk⟩
    unfold keepsRecord at hk
    rw [h₁r] at hk
    simp only [Bool.false_or, Bool.not_eq_true', decide_eq_false_iff_not] at hk
    omega
  · refine List.mem_filter.mpr ⟨h₂m, ?_⟩
    unfold keepsRecord
    have h : ¬(e₂.endTime < now - VIX_TOOLS_EXITED_PROGRAM_REAP_TIME) := by
      omega
    simp [h]
  · refine List.mem_filter.mpr ⟨h₃m, ?_⟩
    unfold keepsRecord
    simp [h₃r]

theorem reap_retention_boundary_witness :
    ((false : Bool) = false ∧
      (699 : Int) = 1000 - VIX_TOOLS_EXITED_PROGRAM_REAP_TIME - 1 ∧
      (701 : Int) = 1000 - VIX_TOOLS_EXITED_PROGRAM_REAP_TIME + 1) ∧
    ((⟨none, none, 1, 0, 0, 699, false⟩ : ExitedProgramState) ∉
      VixToolsUpdateExitedProgramList 1000 none
        [⟨none, none, 2, 0, 0, 701, false⟩, ⟨none, none, 3, 0, 0, 0, true⟩] ∧
      (⟨none, none, 2, 0, 0, 701, false⟩ : ExitedProgramState) ∈
      VixToolsUpdateExitedProgramList 1000 none
        [⟨none, none, 2, 0, 0, 701, false⟩, ⟨none, none, 3, 0, 0, 0, true⟩] ∧
      (⟨none, none, 3, 0, 0, 0, true⟩ : ExitedProgramState) ∈
      VixToolsUpdateExitedProgramList 1000 none
        [⟨none, none, 2, 0, 0, 701, false⟩, ⟨none, none, 3, 0, 0, 0, true⟩]) :=
  ⟨⟨rfl, by decide, by decide⟩,
    reap_retention_boundary 1000
      [⟨none, none, 2, 0, 0, 701, false⟩, ⟨none, none, 3, 0, 0, 0, true⟩]
      ⟨none, none, 1, 0, 0, 699, false⟩ ⟨none, none, 2, 0, 0, 701, false⟩
      ⟨none, none, 3, 0, 0, 0, true⟩
      rfl (by decide) (by decide) (by decide) rfl (by decide)⟩

/-- C7: a request whose opcode matches none of the dispatcher's cases takes
the `default` branch and yields `VIX_OK`, the empty result buffer of length
0, and `deleteResultBufferResult = FALSE` — not an error. -/
theorem unhandled_opcode_returns_ok_empty (ctx : DispatchContext) (n : Nat) :
    VixTools_ProcessVixCommand ctx (.unhandled n) =
      { err := VIX_OK, resultBuffer := "", resultLen := 0
        deleteResultBufferResult := false, registry := ctx.registry } :=
  rfl

theorem monitorAsyncProcExitCalls_eq_findIdx (polls : List Bool) :
    VixToolsMonitorAsyncProcExitCalls polls =
      match polls.findIdx? (fun b => !b) with
      | none => []
      | some i => [i] := by
  induction polls with
  | nil => rfl
  | cons p rest ih =>
    cases p with
    | false => simp [VixToolsMonitorAsyncProcExitCalls]
    | true =>
      rw [VixToolsMonitorAsyncProcExitCalls, ih]
      simp only [List.findIdx?_cons, Bool.not_true, if_false,
        List.findIdx?_succ]
      cases rest.findIdx? (fun b => !b) <;> simp

theorem monitorStartProgramExitCalls_eq_async (polls : List Bool) :
    VixToolsMonitorStartProgramExitCalls polls =
      VixToolsMonitorAsyncProcExitCalls polls := by
  induction polls with
  | nil => rfl
  | cons p rest ih =>
    cases p <;>
      simp [VixToolsMonitorStartProgramExitCalls,
        VixToolsMonitorAsyncProcExitCalls, ih]

/-- C9: over a whole monitor lifetime (the liveness observations its polls
make), both monitor flavors call `ProcMgr_GetExitCode` exactly at the first
poll that observes the process terminated — never at a poll that observes
it running, never more than once, and not at all if every poll observes it
running. -/
theorem monitor_exit_retrieval_at_most_once (polls : List Bool) :
    (VixToolsMonitorAsyncProcExitCalls polls =
      match polls.findIdx? (fun b => !b) with
      | none => []
      | some i => [i]) ∧
    (VixToolsMonitorStartProgramExitCalls polls =
      match polls.findIdx? (fun b => !b) with
      | none => []
      | some i => [i]) ∧
    (VixToolsMonitorAsyncProcExitCalls polls).length ≤ 1 ∧
    (VixToolsMonitorStartProgramExitCalls polls).length ≤ 1 := by
  have h₁ := monitorAsyncProcExitCalls_eq_findIdx polls
  have h₂ := (monitorStartProgramExitCalls_eq_async polls).trans h₁
  refine ⟨h₁, h₂, ?_, ?_⟩
  · rw [h₁]
    cases polls.findIdx? (fun b => !b) <;> simp
  · rw [h₂]
    cases polls.findIdx? (fun b => !b) <;> simp

/-- C10: when the single `ProcMgr_GetExitCode` call fails (nonzero return),
both monitor flavors substitute exit code `-1`: the completion callback (if
one fires) is invoked with exit code `-1`, and the tracked flavor hands the
registry a terminal record with exit code `-1`. -/
theorem getexitcode_failure_substitutes_minus_one
    (result rawExitCode pid now : Int)
    (hasReportProgramDoneProc returnImmediately : Bool)
    (l : List ExitedProgramState) (h : result ≠ 0) :
    VixToolsMonitorAsyncProcDone result rawExitCode pid
        hasReportProgramDoneProc returnImmediately =
      (if hasReportProgramDoneProc && !returnImmediately then
        some (VIX_OK, -1, pid) else none) ∧
    VixToolsMonitorStartProgramDone result rawExitCode pid now l =
      VixToolsUpdateExitedProgramList now
        (some (monitorExitRecord pid (-1) now)) l := by
  unfold VixToolsMonitorAsyncProcDone VixToolsMonitorStartProgramDone
    effectiveExitCode
  simp [h]

theorem getexitcode_failure_substitutes_minus_one_witness :
    (5 : Int) ≠ 0 ∧
    (VixToolsMonitorAsyncProcDone 5 77 3 true false =
      (if true && !false then some (VIX_OK, -1, 3) else none) ∧
    VixToolsMonitorStartProgramDone 5 77 3 0 [] =
      VixToolsUpdateExitedProgramList 0
        (some (monitorExitRecord 3 (-1) 0)) []) :=
  ⟨by decide, getexitcode_failure_substitutes_minus_one 5 77 3 0 true false []
    (by decide)⟩

/-- C3: for a kill request whose target pid is the agent's own pid, `0`,
`-1`, or the negative of the agent's process group id (process group ids
are ≥ 1), `ProcMgr_KillByPid` is never invoked; and when the request got
past impersonation, `VixToolsKillProcess` returns
`VIX_E_GUEST_USER_PERMISSIONS`. -/
theorem kill_self_rejected (env : ImpersonationEnv)
    (credentialType : CredentialType) (ownPid pgrp pid : Int) (killOk : Bool)
    (hpg : 1 ≤ pgrp)
    (hpid : pid = ownPid ∨ pid = 0 ∨ pid = -1 ∨ pid = -pgrp) :
    (VixToolsKillProcess env credentialType ownPid pgrp pid killOk).2 =
      false ∧
    ((VixToolsImpersonateUser env credentialType).1 = VIX_OK →
      VixToolsKillProcess env credentialType ownPid pgrp pid killOk =
        (VIX_E_GUEST_USER_PERMISSIONS, false)) := by
  have href : VixToolsPidRefersToThisProcess ownPid pgrp pid = true := by
    unfold VixToolsPidRefersToThisProcess
    simp only [Bool.or_eq_true, Bool.and_eq_true, decide_eq_true_eq]
    rcases hpid with h | h | h | h
    · exact Or.inl (Or.inl (Or.inl h.symm))
    · exact Or.inl (Or.inl (Or.inr h))
    · exact Or.inl (Or.inr h)
    · by_cases hp : pgrp = 1
      · exact Or.inl (Or.inr (by omega))
      · exact Or.inr (by constructor <;> omega)
  constructor
  · by_cases himp : (VixToolsImpersonateUser env credentialType).1 = VIX_OK
    · simp [VixToolsKillProcess, himp, href]
    · simp [VixToolsKillProcess, himp]
  · intro himp
    simp [VixToolsKillProcess, himp, href]

theorem kill_self_rejected_witness :
    ((1 : Int) ≤ 7 ∧
      ((-7 : Int) = 42 ∨ (-7 : Int) = 0 ∨ (-7 : Int) = -1 ∨
        (-7 : Int) = -7)) ∧
    ((VixToolsKillProcess ⟨true, false, false, false, none, false⟩ .root
        42 7 (-7) true).2 = false ∧
      ((VixToolsImpersonateUser ⟨true, false, false, false, none, false⟩
          .root).1 = VIX_OK →
        VixToolsKillProcess ⟨true, false, false, false, none, false⟩ .root
          42 7 (-7) true = (VIX_E_GUEST_USER_PERMISSIONS, false))) :=
  ⟨⟨by decide, Or.inr (Or.inr (Or.inr (by decide)))⟩,
    kill_self_rejected ⟨true, false, false, false, none, false⟩ .root
      42 7 (-7) true (by decide)
      (Or.inr (Or.inr (Or.inr (by decide))))⟩

/-- C2 (counterexample): with a name/password credential that authenticates
(`Auth_AuthenticateUser` returns a live token) but whose context switch
(`ProcMgr_ImpersonateUserStart`) then fails, the impersonation call FAILS,
yet the handler's `VixToolsLogoutUser` performs one `Auth_CloseToken` on
the live token left in `*userToken` — so the release count (1) differs from
the number of impersonations that succeeded with a non-sentinel token
(0), refuting the claim as stated. -/
theorem impersonation_release_symmetry_counterexample :
    successfulLiveImpersonations ⟨false, false, true, false, some 7, false⟩
        .namePassword = 0 ∧
    (handlerRun ⟨false, false, true, false, some 7, false⟩ .namePassword
        VIX_OK).closeTokenCalls = 1 ∧
    ¬((handlerRun ⟨false, false, true, false, some 7, false⟩ .namePassword
        VIX_OK).closeTokenCalls =
      successfulLiveImpersonations ⟨false, false, true, false, some 7, false⟩
        .namePassword) := by decide

/-- C2 (amended): across every credential descriptor and every handler
path, `Auth_CloseToken` is performed exactly as many times as the
impersonation call left a live (non-sentinel, non-null) token in
`*userToken` — whether or not the impersonation as a whole succeeded;
`VixToolsUnimpersonateUser` is called exactly once when impersonation
succeeded and never otherwise; and the release is a no-op for the sentinel
token and for a null token. -/
theorem impersonation_release_symmetry (env : ImpersonationEnv)
    (credentialType : CredentialType) (bodyErr : VixError) :
    (handlerRun env credentialType bodyErr).closeTokenCalls =
      acquiredLiveTokens env credentialType ∧
    (handlerRun env credentialType bodyErr).unimpersonateCalls =
      (if (VixToolsImpersonateUser env credentialType).1 = VIX_OK
        then 1 else 0) ∧
    VixToolsLogoutUserCloses .processCreator = false ∧
    VixToolsLogoutUserCloses .null = false ∧
    VixToolsUnimpersonateUserStops .processCreator = false := by
  unfold handlerRun handlerSkeleton acquiredLiveTokens
  rcases h : VixToolsImpersonateUser env credentialType with ⟨e, t⟩
  by_cases he : e = VIX_OK <;> cases t <;>
    simp [he, VixToolsLogoutUserCloses, VixToolsUnimpersonateUserStops]

theorem countPid_nil (p : Int) : countPid p [] = 0 := rfl

theorem countPid_cons (p : Int) (e : ExitedProgramState)
    (l : List ExitedProgramState) :
    countPid p (e :: l) = (if e.pid = p then 1 else 0) + countPid p l := by
  unfold countPid
  rw [List.filter_cons]
  split <;> simp_all <;> omega

theorem countPid_append (p : Int) (l₁ l₂ : List ExitedProgramState) :
    countPid p (l₁ ++ l₂) = countPid p l₁ + countPid p l₂ := by
  unfold countPid
  rw [List.filter_append, List.length_append]

theorem countPid_updateFirstMatch (p : Int) (s : ExitedProgramState)
    (l : List ExitedProgramState) :
    countPid p (updateFirstMatch s l) = countPid p l := by
  induction l with
  | nil => rfl
  | cons e rest ih =>
    unfold updateFirstMatch
    split
    · rw [countPid_cons, countPid_cons]
    · rw [countPid_cons, countPid_cons, ih]

theorem countPid_filter_le (p : Int) (q : ExitedProgramState → Bool)
    (l : List ExitedProgramState) :
    countPid p (l.filter q) ≤ countPid p l := by
  induction l with
  | nil => exact Nat.le_refl 0
  | cons e rest ih =>
    rw [List.filter_cons, countPid_cons]
    split
    · rw [countPid_cons]
      omega
    · omega

theorem countPid_eq_zero_of_not_any (s : ExitedProgramState)
    (l : List ExitedProgramState)
    (h : l.any (fun e => e.pid = s.pid) = false) :
    countPid s.pid l = 0 := by
  induction l with
  | nil => rfl
  | cons e rest ih =>
    simp only [List.any_cons, Bool.or_eq_false_iff] at h
    rw [countPid_cons, ih h.2]
    have he : ¬(e.pid = s.pid) := by simpa using h.1
    simp [he]

theorem countPid_pos_any (pid : Int) (l : List ExitedProgramState)
    (h : 0 < countPid pid l) : l.any (fun e => e.pid = pid) = true := by
  induction l with
  | nil => simp [countPid] at h
  | cons e rest ih =>
    rw [countPid_cons] at h
    by_cases he : e.pid = pid
    · simp [List.any_cons, he]
    · simp only [he, if_false, Nat.zero_add] at h
      simp [List.any_cons, ih h]

theorem updateExitedProgramList_not_found (now : Int)
    (s : ExitedProgramState) (l : List ExitedProgramState)
    (h : ¬(s.isRunning = false ∧ l.any (fun e => e.pid = s.pid) = true)) :
    VixToolsUpdateExitedProgramList now (some s) l =
      l.filter (keepsRecord now) ++ [s] := by
  rw [VixToolsUpdateExitedProgramList, if_neg h]

theorem updateExitedProgramList_found (now : Int)
    (s : ExitedProgramState) (l : List ExitedProgramState)
    (h : s.isRunning = false ∧ l.any (fun e => e.pid = s.pid) = true) :
    VixToolsUpdateExitedProgramList now (some s) l =
      (updateFirstMatch s l).filter (keepsRecord now) := by
  rw [VixToolsUpdateExitedProgramList, if_pos h]

theorem updateExitedProgramList_preserves_at_most_one (now : Int)
    (s : ExitedProgramState) (l : List ExitedProgramState)
    (hinv : ∀ p, countPid p l ≤ 1)
    (hfresh : s.isRunning = true → countPid s.pid l = 0) :
    ∀ p, countPid p (VixToolsUpdateExitedProgramList now (some s) l) ≤ 1 := by
  intro p
  by_cases hc : s.isRunning = false ∧ l.any (fun e => e.pid = s.pid) = true
  · rw [updateExitedProgramList_found now s l hc]
    calc countPid p ((updateFirstMatch s l).filter (keepsRecord now))
        ≤ countPid p (updateFirstMatch s l) := countPid_filter_le _ _ _
      _ = countPid p l := countPid_updateFirstMatch _ _ _
      _ ≤ 1 := hinv p
  · rw [updateExitedProgramList_not_found now s l hc]
    rw [countPid_append, countPid_cons, countPid_nil]
    have hfl := countPid_filter_le p (keepsRecord now) l
    have hl := hinv p
    by_cases hp : s.pid = p
    · have h0 : countPid p l = 0 := by
        rcases Bool.eq_false_or_eq_true s.isRunning with hr | hr
        · rw [← hp]
          exact hfresh hr
        · have hany : l.any (fun e => e.pid = s.pid) = false := by
            rcases Bool.eq_false_or_eq_true
              (l.any (fun e => e.pid = s.pid)) with ha | ha
            · exact absurd ⟨hr, ha⟩ hc
            · exact ha
          rw [← hp]
          exact countPid_eq_zero_of_not_any s l hany
      rw [if_pos hp]
      omega
    · rw [if_neg hp]
      omega

theorem recordExit_no_growth (pid exitCode now p : Int)
    (l : List ExitedProgramState) (h : 0 < countPid pid l) :
    countPid p (applyRegOp (.recordExit pid exitCode now) l) ≤
      countPid p l := by
  have hany : l.any (fun e => e.pid = (monitorExitRecord pid exitCode now).pid)
      = true := countPid_pos_any pid l h
  show countPid p (VixToolsUpdateExitedProgramList now
    (some (monitorExitRecord pid exitCode now)) l) ≤ countPid p l
  rw [updateExitedProgramList_found now _ l ⟨rfl, hany⟩]
  calc countPid p ((updateFirstMatch _ l).filter (keepsRecord now))
      ≤ countPid p (updateFirstMatch _ l) := countPid_filter_le _ _ _
    _ = countPid p l := countPid_updateFirstMatch _ _ _

theorem applyRegOps_preserves_at_most_one (ops : List RegOp) :
    ∀ l : List ExitedProgramState, (∀ p, countPid p l ≤ 1) →
      launchFresh ops l = true →
      ∀ p, countPid p (applyRegOps ops l) ≤ 1 := by
  induction ops with
  | nil => exact fun l hinv _ => hinv
  | cons op rest ih =>
    intro l hinv hfresh
    cases op with
    | recordRunning name user pid now =>
      simp only [launchFresh, Bool.and_eq_true, decide_eq_true_eq] at hfresh
      exact ih _
        (updateExitedProgramList_preserves_at_most_one now
          (startProgramRunningRecord name user pid now) l hinv
          (fun _ => hfresh.1))
        hfresh.2
    | recordExit pid exitCode now =>
      simp only [launchFresh, Bool.true_and] at hfresh
      exact ih _
        (updateExitedProgramList_preserves_at_most_one now
          (monitorExitRecord pid exitCode now) l hinv
          (fun hr => by simp [monitorExitRecord] at hr))
        hfresh

/-- C1 (amended): `record_exit` for a pid that already has a registry entry
updates it in place and appends nothing, so it never increases any pid's
entry count; and after any sequence of launch records and exit records in
which each launch's pid has no record (of either kind) still present in the
registry, the registry holds at most one entry per pid.  (Without that
launch-freshness condition the invariant fails: a launch whose OS pid was
recycled from a record still retained in the registry appends a
duplicate.) -/
theorem at_most_one_entry_per_pid (ops : List RegOp)
    (l : List ExitedProgramState)
    (hinv : ∀ p, countPid p l ≤ 1)
    (hfresh : launchFresh ops l = true) :
    (∀ p, countPid p (applyRegOps ops l) ≤ 1) ∧
    (∀ pid exitCode now p, 0 < countPid pid l →
      countPid p (applyRegOp (.recordExit pid exitCode now) l) ≤
        countPid p l) :=
  ⟨applyRegOps_preserves_at_most_one ops l hinv hfresh,
    fun pid exitCode now p h => recordExit_no_growth pid exitCode now p l h⟩

theorem at_most_one_entry_per_pid_witness :
    ((∀ p, countPid p ([⟨some "/bin/z", some "u", 9, 0, 0, 0, true⟩] :
        List ExitedProgramState) ≤ 1) ∧
      launchFresh [.recordRunning "/bin/x" "u" 5 1000, .recordExit 5 0 1001,
          .recordRunning "/bin/y" "u" 6 1002]
        [⟨some "/bin/z", some "u", 9, 0, 0, 0, true⟩] = true) ∧
    ((∀ p, countPid p (applyRegOps [.recordRunning "/bin/x" "u" 5 1000,
        .recordExit 5 0 1001, .recordRunning "/bin/y" "u" 6 1002]
        [⟨some "/bin/z", some "u", 9, 0, 0, 0, true⟩]) ≤ 1) ∧
      (∀ pid exitCode now p,
        0 < countPid pid ([⟨some "/bin/z", some "u", 9, 0, 0, 0, true⟩] :
          List ExitedProgramState) →
        countPid p (applyRegOp (.recordExit pid exitCode now)
          [⟨some "/bin/z", some "u", 9, 0, 0, 0, true⟩]) ≤
          countPid p ([⟨some "/bin/z", some "u", 9, 0, 0, 0, true⟩] :
            List ExitedProgramState))) :=
  ⟨⟨fun p => by
      rw [countPid_cons, countPid_nil]
      split <;> omega,
    by decide⟩,
    at_most_one_entry_per_pid
      [.recordRunning "/bin/x" "u" 5 1000, .recordExit 5 0 1001,
        .recordRunning "/bin/y" "u" 6 1002]
      [⟨some "/bin/z", some "u", 9, 0, 0, 0, true⟩]
      (fun p => by
        rw [countPid_cons, countPid_nil]
        split <;> omega)
      (by decide)⟩

/-- C1 (counterexample): starting from the empty registry, record a launch
with pid 5, record its exit (updated in place — still one entry), then
record a second launch whose OS-recycled pid is again 5: the registry now
holds two entries for pid 5, refuting the at-most-one-entry-per-pid claim
over arbitrary sequences of these operations. -/
theorem at_most_one_entry_per_pid_counterexample :
    countPid 5 (applyRegOps [.recordRunning "/bin/x" "u" 5 1000,
      .recordExit 5 0 1001, .recordRunning "/bin/x" "u" 5 1002] []) = 2 ∧
    ¬(countPid 5 (applyRegOps [.recordRunning "/bin/x" "u" 5 1000,
      .recordExit 5 0 1001, .recordRunning "/bin/x" "u" 5 1002] []) ≤ 1) := by
  decide
theorem runProgramImpl_envp (fs : FileSystem) (execResult : Option Int)
    (userEnvironmentTable : Option (List String)) (commandLine : String) :
    (VixToolsRunProgramImpl fs execResult userEnvironmentTable
      commandLine).envp =
      VixToolsEnvironmentTableToEnvp userEnvironmentTable := by
  unfold VixToolsRunProgramImpl
  dsimp only
  repeat' split
  all_goals rfl

theorem startProgramImpl_envp (fs : FileSystem) (execResult : Option Int)
    (programPath : String) (workingDir : Option String)
    (envVars : Option (List String)) :
    (VixToolsStartProgramImpl fs execResult programPath workingDir
      envVars).envp = envVars := by
  unfold VixToolsStartProgramImpl
  dsimp only
  repeat' split
  all_goals rfl

/-- C5 (counterexample): with the environment-override table present
(holding `A=1`) and an ambient environment `B=2`, a tracked launch
(`VixToolsStartProgramImpl`) whose request carries no environment variables
runs the child with the ambient environment, not with the table's
variables — while the fire-and-report flavor (`VixToolsRunProgramImpl`)
does hand the table to `ProcMgr_ExecAsync`.  This refutes the claim that
the table governs tracked launches. -/
theorem environment_table_tracked_launch_counterexample :
    VixToolsEnvironmentTableToEnvp (some ["A=1"]) = some ["A=1"] ∧
    (VixToolsRunProgramImpl ⟨fun _ => true, fun _ => true, fun _ => true⟩
      (some 9) (some ["A=1"]) "/bin/x").envp = some ["A=1"] ∧
    (VixToolsStartProgramImpl ⟨fun _ => true, fun _ => true, fun _ => true⟩
      (some 9) "/bin/x" none none).err = VIX_OK ∧
    (VixToolsStartProgramImpl ⟨fun _ => true, fun _ => true, fun _ => true⟩
      (some 9) "/bin/x" none none).execAsyncCalled = true ∧
    childEnvironment
      (VixToolsStartProgramImpl ⟨fun _ => true, fun _ => true, fun _ => true⟩
        (some 9) "/bin/x" none none).envp ["B=2"] = ["B=2"] ∧
    childEnvironment
      (VixToolsStartProgramImpl ⟨fun _ => true, fun _ => true, fun _ => true⟩
        (some 9) "/bin/x" none none).envp ["B=2"] ≠ ["A=1"] := by
  decide

/-- C5 (amended): when the private environment-override table exists, it is
the fire-and-report flavor (`VixToolsRunProgramImpl`, also used by
RunScript) that runs the child with exactly the table's variables,
overriding the ambient environment; the tracked flavor
(`VixToolsStartProgramImpl`) instead passes the request-supplied
environment variables to `ProcMgr_ExecAsync` (inheriting the ambient
environment when the request supplies none) and never consults the
table. -/
theorem environment_table_precedence (fs : FileSystem)
    (execResult : Option Int) (entries ambientEnvironment : List String)
    (commandLine programPath : String) (workingDir : Option String)
    (requestEnvVars : Option (List String)) :
    (VixToolsRunProgramImpl fs execResult (some entries) commandLine).envp =
      some entries ∧
    childEnvironment
      (VixToolsRunProgramImpl fs execResult (some entries) commandLine).envp
      ambientEnvironment = entries ∧
    (VixToolsStartProgramImpl fs execResult programPath workingDir
      requestEnvVars).envp = requestEnvVars ∧
    childEnvironment
      (VixToolsStartProgramImpl fs execResult programPath workingDir
        requestEnvVars).envp ambientEnvironment =
      childEnvironment requestEnvVars ambientEnvironment := by
  have h1 := runProgramImpl_envp fs execResult (some entries) commandLine
  have h2 := startProgramImpl_envp fs execResult programPath workingDir
    requestEnvVars
  exact ⟨h1, by rw [h1]; rfl, h2, by rw [h2]⟩

/-- C8: in both launch flavors a non-existent resolved executable fails
with `VIX_E_FILE_NOT_FOUND` and an existing but non-executable one with
`VIX_E_GUEST_USER_PERMISSIONS`; in the tracked flavor a supplied working
directory that is not a directory fails with `VIX_E_NOT_A_DIRECTORY`; in
each such case `ProcMgr_ExecAsync` is never invoked, and whenever the
tracked impl fails, `VixTools_StartProgram` leaves the registry unchanged
(creates no record). -/
theorem launch_preconditions (fs : FileSystem) (execResult : Option Int)
    (userEnvironmentTable : Option (List String)) (commandLine : String)
    (env : ImpersonationEnv) (credentialType : CredentialType)
    (impersonatedUsername : String) (now : Int) (req : StartProgramRequest)
    (l : List ExitedProgramState) (d : String) :
    (fs.fileExists (extractProgramName req.programPath) = false →
      VixToolsStartProgramImpl fs execResult req.programPath req.workingDir
        req.envVars =
      { err := VIX_E_FILE_NOT_FOUND, execAsyncCalled := false, pid := -1
        envp := req.envVars }) ∧
    (fs.fileExists (extractProgramName commandLine) = false →
      VixToolsRunProgramImpl fs execResult userEnvironmentTable commandLine =
      { err := VIX_E_FILE_NOT_FOUND, execAsyncCalled := false, pid := -1
        envp := VixToolsEnvironmentTableToEnvp userEnvironmentTable }) ∧
    (fs.fileExists (extractProgramName req.programPath) = true →
      fs.execAccess (extractProgramName req.programPath) = false →
      VixToolsStartProgramImpl fs execResult req.programPath req.workingDir
        req.envVars =
      { err := VIX_E_GUEST_USER_PERMISSIONS, execAsyncCalled := false
        pid := -1, envp := req.envVars }) ∧
    (fs.fileExists (extractProgramName commandLine) = true →
      fs.execAccess (extractProgramName commandLine) = false →
      VixToolsRunProgramImpl fs execResult userEnvironmentTable commandLine =
      { err := VIX_E_GUEST_USER_PERMISSIONS, execAsyncCalled := false
        pid := -1
        envp := VixToolsEnvironmentTableToEnvp userEnvironmentTable }) ∧
    (fs.fileExists (extractProgramName req.programPath) = true →
      fs.execAccess (extractProgramName req.programPath) = true →
      req.workingDir = some d → fs.isDirectory d = false →
      VixToolsStartProgramImpl fs execResult req.programPath req.workingDir
        req.envVars =
      { err := VIX_E_NOT_A_DIRECTORY, execAsyncCalled := false, pid := -1
        envp := req.envVars }) ∧
    ((VixToolsStartProgramImpl fs execResult req.programPath req.workingDir
        req.envVars).err ≠ VIX_OK →
      (VixTools_StartProgram env credentialType fs execResult
        impersonatedUsername now req l).registry = l) := by
  refine ⟨?_, ?_, ?_, ?_, ?_, ?_⟩
  · intro h
    unfold VixToolsStartProgramImpl
    simp [h]
  · intro h
    unfold VixToolsRunProgramImpl
    simp [h]
  · intro h₁ h₂
    unfold VixToolsStartProgramImpl
    simp [h₁, h₂]
  · intro h₁ h₂
    unfold VixToolsRunProgramImpl
    simp [h₁, h₂]
  · intro h₁ h₂ h₃ h₄
    unfold VixToolsStartProgramImpl
    simp [h₁, h₂, h₃, h₄]
  · intro herr
    unfold VixTools_StartProgram
    split
    · rfl
    · dsimp only
      split
      · rfl
      · rfl

/-- Witness for `launch_preconditions` at concrete filesystems: a
filesystem on which nothing exists (case 1/2), one where everything exists
but nothing is executable (case 3/4), one where the executable is fine but
no path is a directory (case 5), and a start request that fails its impl
check so the registry stays empty (case 6). -/
theorem launch_preconditions_witness :
    ((⟨fun _ => false, fun _ => false, fun _ => false⟩ :
        FileSystem).fileExists (extractProgramName "/bin/x") = false ∧
      VixToolsStartProgramImpl ⟨fun _ => false, fun _ => false, fun _ => false⟩
        (some 9) "/bin/x" none none =
      { err := VIX_E_FILE_NOT_FOUND, execAsyncCalled := false, pid := -1
        envp := none }) ∧
    (VixToolsRunProgramImpl ⟨fun _ => false, fun _ => false, fun _ => false⟩
        (some 9) none "/bin/x" =
      { err := VIX_E_FILE_NOT_FOUND, execAsyncCalled := false, pid := -1
        envp := none }) ∧
    (VixToolsStartProgramImpl ⟨fun _ => true, fun _ => false, fun _ => false⟩
        (some 9) "/bin/x" none none =
      { err := VIX_E_GUEST_USER_PERMISSIONS, execAsyncCalled := false
        pid := -1, envp := none }) ∧
    (VixToolsRunProgramImpl ⟨fun _ => true, fun _ => false, fun _ => false⟩
        (some 9) none "/bin/x" =
      { err := VIX_E_GUEST_USER_PERMISSIONS, execAsyncCalled := false
        pid := -1, envp := none }) ∧
    (VixToolsStartProgramImpl ⟨fun _ => true, fun _ => true, fun _ => false⟩
        (some 9) "/bin/x" (some "/w") none =
      { err := VIX_E_NOT_A_DIRECTORY, execAsyncCalled := false, pid := -1
        envp := none }) ∧
    ((VixTools_StartProgram ⟨true, false, false, false, none, false⟩ .root
        ⟨fun _ => false, fun _ => false, fun _ => false⟩ (some 9) "u" 0
        ⟨"/bin/x", none, none, none⟩ []).registry = []) :=
  ⟨⟨rfl,
    (launch_preconditions ⟨fun _ => false, fun _ => false, fun _ => false⟩
      (some 9) none "/bin/x" ⟨true, false, false, false, none, false⟩ .root
      "u" 0 ⟨"/bin/x", none, none, none⟩ [] "/w").1 (by decide)⟩,
    (launch_preconditions ⟨fun _ => false, fun _ => false, fun _ => false⟩
      (some 9) none "/bin/x" ⟨true, false, false, false, none, false⟩ .root
      "u" 0 ⟨"/bin/x", none, none, none⟩ [] "/w").2.1 (by decide),
    (launch_preconditions ⟨fun _ => true, fun _ => false, fun _ => false⟩
      (some 9) none "/bin/x" ⟨true, false, false, false, none, false⟩ .root
      "u" 0 ⟨"/bin/x", none, none, none⟩ [] "/w").2.2.1 (by decide)
      (by decide),
    (launch_preconditions ⟨fun _ => true, fun _ => false, fun _ => false⟩
      (some 9) none "/bin/x" ⟨true, false, false, false, none, false⟩ .root
      "u" 0 ⟨"/bin/x", none, none, none⟩ [] "/w").2.2.2.1 (by decide)
      (by decide),
    (launch_preconditions ⟨fun _ => true, fun _ => true, fun _ => false⟩
      (some 9) none "/bin/x" ⟨true, false, false, false, none, false⟩ .root
      "u" 0 ⟨"/bin/x", none, some "/w", none⟩ [] "/w").2.2.2.2.1 (by decide)
      (by decide) (by decide) (by decide),
    (launch_preconditions ⟨fun _ => false, fun _ => false, fun _ => false⟩
      (some 9) none "/bin/x" ⟨true, false, false, false, none, false⟩ .root
      "u" 0 ⟨"/bin/x", none, none, none⟩ [] "/w").2.2.2.2.2 (by decide)⟩

/-- C6 (counterexample): a start-program request with an empty program path
fails with `VIX_E_INVALID_ARG`, yet `VixTools_StartProgram` prints the
(still `-1`) pid into its static result buffer, so the dispatcher hands its
caller the error together with the non-empty 2-byte result `"-1"` — not an
empty result buffer. -/
theorem dispatcher_failure_nonempty_result_counterexample :
    VixTools_ProcessVixCommand
        ⟨⟨true, false, false, false, none, false⟩, .root,
          ⟨fun _ => true, fun _ => true, fun _ => true⟩, none, "u", 0,
          0, 0, 1, true, ⟨"", none, none, none⟩, []⟩
        .VIX_COMMAND_START_PROGRAM =
      { err := VIX_E_INVALID_ARG, resultBuffer := "-1", resultLen := 2
        deleteResultBufferResult := false, registry := [] } ∧
    (VIX_E_INVALID_ARG : VixError) ≠ VIX_OK ∧ (2 : Nat) ≠ 0 := by
  refine ⟨by decide, by decide, by decide⟩

/-- C6 (amended): the dispatcher passes a failing handler's status through
unchanged, and whenever the handler left the result value `NULL` — as
every kill-process dispatch does — the caller receives the empty result
buffer of length 0 with the ownership flag FALSE; the launch handlers,
however, store their textual pid (`"-1"` on failure) in the result, which
the dispatcher forwards alongside the error. -/
theorem dispatcher_failure_empty_result (err : VixError)
    (resultValueLength : Nat) (deleteResultValue : Bool)
    (ctx : DispatchContext) :
    processVixCommandAbortTail err none true resultValueLength
      deleteResultValue = (err, "", 0, false) ∧
    VixTools_ProcessVixCommand ctx .VIX_COMMAND_KILL_PROCESS =
      { err := (VixToolsKillProcess ctx.impEnv ctx.credentialType ctx.ownPid
          ctx.pgrp ctx.killPid ctx.killOk).1
        resultBuffer := "", resultLen := 0
        deleteResultBufferResult := false, registry := ctx.registry } :=
  ⟨rfl, rfl⟩

end VixTools
